import Mathlib

/-!
Verification of `streamlit_video_downloader.py`.

This file is a shallow embedding of the decision logic of the script:
the quality-preset table `QUALITY_SPEC`, the error classifier
`classify_download_error`, the output-template construction (`outtmpl`,
line 117 of the source), and the post-engine success handling
(lines 139-150: the existence/size guard and the `st.download_button`
call).  Python strings are modelled as Lean `String`; `str.lower()` is
modelled by `pyLower` (Python and Lean agree on the ASCII range, which
covers every pattern the classifier tests); the Python substring test
`pat in s` is modelled by `strIn`.
-/

/-- Containment of `pat` as a contiguous run inside `s`, on character
lists.  This is the semantics of Python's `pat in s` for strings. -/
def hasSubstr (pat : List Char) : List Char → Bool
  | [] => pat.isEmpty
  | c :: rest => pat.isPrefixOf (c :: rest) || hasSubstr pat rest

/-- Python's `pat in s` on strings: `pat` occurs contiguously in `s`. -/
def strIn (pat s : String) : Bool := hasSubstr pat.data s.data

/-- Python's `s.lower()`, modelled on its ASCII behaviour: every
character is lowercased individually (`Char.toLower` lowercases exactly
the basic latin letters `A`-`Z`, as CPython does on that range). -/
def pyLower (s : String) : String := ⟨s.data.map Char.toLower⟩

/-- The quality-preset table of the script (source lines 36-41), kept in
insertion order as an association list, as a Python dict preserves
insertion order. -/
def QUALITY_SPEC : List (String × String) :=
  [("Best available", "bestvideo[ext=mp4]+bestaudio[ext=m4a]/best[ext=mp4]"),
   ("1080p HD", "bestvideo[height<=1080][ext=mp4]+bestaudio[ext=m4a]/best[height<=1080][ext=mp4]"),
   ("720p", "bestvideo[height<=720][ext=mp4]+bestaudio[ext=m4a]/best[height<=720][ext=mp4]"),
   ("480p", "bestvideo[height<=480][ext=mp4]+bestaudio[ext=m4a]/best[height<=480][ext=mp4]")]

/-- The error classifier (source lines 44-80): lowercase the message
once, then test the patterns in source order; the fallback echoes the
raw message.  The strings are copied verbatim from the source (the first
hint contains the spaces produced by the backslash line continuation). -/
def classify_download_error (err_msg : String) : String × String :=
  let lower := pyLower err_msg
  if strIn "unsupported url" lower || strIn "no extractor" lower then
    ("Sitio no soportado",
     "El sitio web no está en la lista de extractores de yt‑dlp.             Prueba con otra URL o revisa soporte con `yt-dlp --list-extractors`.")
  else if strIn "drm" lower || strIn "encrypted" lower then
    ("Contenido protegido por DRM",
     "No es posible descargar/descifrar videos con DRM (Netflix, Disney+, etc.).")
  else if strIn "this video is unavailable" lower && strIn "country" lower then
    ("Geo‑bloqueo",
     "El video está restringido en tu región. Usa una VPN situada en el país permitido.")
  else if strIn "login" lower || strIn "cookies" lower || strIn "private" lower then
    ("Requiere iniciar sesión",
     "Debes pasar tus cookies del navegador (`--cookies-from-browser`) para contenido privado o con edad restringida.")
  else if strIn "ffmpeg" lower && strIn "not found" lower then
    ("FFmpeg no encontrado",
     "Instala FFmpeg y asegúrate de que esté disponible en tu PATH del sistema.")
  else if strIn "file name too long" lower then
    ("Nombre de archivo demasiado largo",
     "El título del video excede el límite del sistema de archivos. Se recomienda usar un nombre de archivo corto.")
  else
    ("Error desconocido", err_msg)

/-- The raw pattern of each of the six non-fallback categories, in the
source order of the `if` chain (unsupported site, DRM, geo-block,
login, ffmpeg, filename-too-long), each applied to the lowercased
message.  Used to express the priority semantics of the chain. -/
def patternGuards : List (String → Bool) :=
  [fun l => strIn "unsupported url" l || strIn "no extractor" l,
   fun l => strIn "drm" l || strIn "encrypted" l,
   fun l => strIn "this video is unavailable" l && strIn "country" l,
   fun l => strIn "login" l || strIn "cookies" l || strIn "private" l,
   fun l => strIn "ffmpeg" l && strIn "not found" l,
   fun l => strIn "file name too long" l]

/-- Index of the first raw pattern that matches the lowercased message;
`6` (the list length) when none matches. -/
def firstMatchIndex (m : String) : Nat :=
  patternGuards.findIdx (fun g => g (pyLower m))

/-- The category pair returned for each pattern index, `6` and above
being the fallback that echoes the raw message.  The strings are the
same verbatim copies used in `classify_download_error`. -/
def categoryOf (i : Nat) (err_msg : String) : String × String :=
  match i with
  | 0 => ("Sitio no soportado",
     "El sitio web no está en la lista de extractores de yt‑dlp.             Prueba con otra URL o revisa soporte con `yt-dlp --list-extractors`.")
  | 1 => ("Contenido protegido por DRM",
     "No es posible descargar/descifrar videos con DRM (Netflix, Disney+, etc.).")
  | 2 => ("Geo‑bloqueo",
     "El video está restringido en tu región. Usa una VPN situada en el país permitido.")
  | 3 => ("Requiere iniciar sesión",
     "Debes pasar tus cookies del navegador (`--cookies-from-browser`) para contenido privado o con edad restringida.")
  | 4 => ("FFmpeg no encontrado",
     "Instala FFmpeg y asegúrate de que esté disponible en tu PATH del sistema.")
  | 5 => ("Nombre de archivo demasiado largo",
     "El título del video excede el límite del sistema de archivos. Se recomienda usar un nombre de archivo corto.")
  | _ => ("Error desconocido", err_msg)

/-- The metadata record the engine returns on success, reduced to the
fields the handler reads: `info["id"]` and `info["title"]` (source
lines 136-148). -/
structure Info where
  id : String
  title : String
deriving DecidableEq

/-- The state of the file at `file_path = ydl.prepare_filename(info)`
when the engine call returns: whether `file_path.exists()`, the value of
`file_path.stat().st_size`, and the byte contents that `f.read()` would
return (bytes as codepoints `0..255`). -/
structure FileState where
  fileExists : Bool
  size : Nat
  bytes : List Nat
deriving DecidableEq

/-- The arguments of the `st.download_button` call (source lines
145-150).  The source passes `label`, `data`, `file_name` and `mime`
only; every other Streamlit parameter, in particular `key`, is left at
its default, so `key` is `none`. -/
structure ButtonCall where
  label : String
  data : List Nat
  file_name : String
  mime : String
  key : Option String
deriving DecidableEq

/-- Outcome of the handler after a successful engine call (source lines
139-150): either the `st.error` + `st.stop()` branch when the file is
missing or empty (no file is ever opened there), or the success branch
that opens the file and renders the download button. -/
inductive HandlerOutcome where
  | noFile (message : String)
  | offered (title : String) (button : ButtonCall)
deriving DecidableEq

/-- The post-engine success handling (source lines 139-150): `fname` is
`file_path.name`, `fs` the state of the file at `file_path`.  The guard
is `not file_path.exists() or file_path.stat().st_size == 0`; the
success branch reads the file's bytes and calls `st.download_button`
with no `key` argument. -/
def handleDownloaded (info : Info) (fs : FileState) (fname : String) : HandlerOutcome :=
  if !fs.fileExists || fs.size == 0 then
    .noFile "No se generó ningún archivo. Verifica la URL y vuelve a intentar."
  else
    .offered info.title
      { label := "💾 Guardar MP4", data := fs.bytes, file_name := fname,
        mime := "video/mp4", key := none }

/-- The output template handed to the engine (source line 117):
`os.path.join(tmp_dir.as_posix(), "% (id)s.%(ext)s")`.  `os.path.join`
is modelled for the case that applies here: a non-empty first component
without a trailing slash and a relative second component. -/
def outtmpl (tmpDir : String) : String := tmpDir ++ "/" ++ "% (id)s.%(ext)s"

/-- Whether a template is parameterized by the engine field `name`: the
engine's template syntax requires the percent sign to be immediately
followed by the parenthesised field name, `%(name)s`. -/
def usesField (name t : String) : Bool := strIn ("%(" ++ name ++ ")s") t

/-- Aggregate size of a directory modelled as a list of (name, size)
files. -/
def dirSize (files : List (String × Nat)) : Nat := (files.map Prod.snd).sum

/-- Modelled from the spec: the post-success temporary-directory
eviction is absent from the source revision under `src/` (the spec's §3
and §4.1 describe it in the superseding revision of the script, which
is not in `src/`).  Per the spec's words: after a successful download,
if the directory's total size exceeds the fixed 300 MB threshold the
entire directory is deleted and recreated (so it becomes empty);
otherwise nothing is touched. -/
def cleanup_tmp_dir (files : List (String × Nat)) : List (String × Nat) :=
  if 300 * 1024 * 1024 < dirSize files then [] else files

/-- Lowercasing a basic latin letter yields a character outside the
uppercase range, so `Char.toLower` is idempotent. -/
theorem toLower_toLower (c : Char) : c.toLower.toLower = c.toLower := by
  simp only [Char.toLower]
  by_cases h : c.toNat ≥ 65 ∧ c.toNat ≤ 90
  · have hv : (c.toNat + 32).isValidChar := Or.inl (by omega)
    have ht : (Char.ofNat (c.toNat + 32)).toNat = c.toNat + 32 := by
      rw [Char.ofNat, dif_pos hv]; rfl
    rw [if_pos h, ht, if_neg (by omega)]
  · rw [if_neg h, if_neg h]

/-- The modelled `str.lower()` is idempotent. -/
theorem pyLower_pyLower (s : String) : pyLower (pyLower s) = pyLower s := by
  have h : Char.toLower ∘ Char.toLower = Char.toLower := funext toLower_toLower
  simp [pyLower, List.map_map, h]

/-- C9: the preset table has exactly the four advertised keys, in order,
and the four mapped format-selector strings are pairwise distinct. -/
theorem quality_spec_keys_and_distinct_selectors :
    QUALITY_SPEC.map Prod.fst = ["Best available", "1080p HD", "720p", "480p"]
    ∧ (QUALITY_SPEC.map Prod.snd).Pairwise (· ≠ ·) := by
  decide

/-- C8: classification is case-insensitive: on any message the title
agrees with the title on the lowercased message, and outside the
unknown-fallback case the whole (title, hint) pair agrees; only the
echoed raw message of the unknown case may differ. -/
theorem classify_case_insensitive (m : String) :
    (classify_download_error m).fst = (classify_download_error (pyLower m)).fst
    ∧ ((classify_download_error m).fst ≠ "Error desconocido" →
        classify_download_error m = classify_download_error (pyLower m)) := by
  simp only [classify_download_error, pyLower_pyLower]
  split_ifs <;> simp

/-- C8 witness at a concrete uppercase message. -/
theorem classify_case_insensitive_witness :
    (classify_download_error "DRM").fst ≠ "Error desconocido"
    ∧ classify_download_error "DRM" = classify_download_error (pyLower "DRM") :=
  ⟨by decide, (classify_case_insensitive "DRM").2 (by decide)⟩

/-- C7: a message matching none of the known patterns (with the
geo-block pattern being the conjunction of its two substrings, and the
ffmpeg pattern the conjunction of its two) is classified as the unknown
category, and the explanation echoes the original message unchanged. -/
theorem classify_unmatched_echoes_message (m : String)
    (h0 : strIn "unsupported url" (pyLower m) = false)
    (h1 : strIn "no extractor" (pyLower m) = false)
    (h2 : strIn "drm" (pyLower m) = false)
    (h3 : strIn "encrypted" (pyLower m) = false)
    (h4 : strIn "this video is unavailable" (pyLower m) = false
          ∨ strIn "country" (pyLower m) = false)
    (h5 : strIn "login" (pyLower m) = false)
    (h6 : strIn "cookies" (pyLower m) = false)
    (h7 : strIn "private" (pyLower m) = false)
    (h8 : strIn "ffmpeg" (pyLower m) = false
          ∨ strIn "not found" (pyLower m) = false)
    (h9 : strIn "file name too long" (pyLower m) = false) :
    classify_download_error m = ("Error desconocido", m) := by
  rcases h4 with h4 | h4 <;> rcases h8 with h8 | h8 <;>
    simp [classify_download_error, h0, h1, h2, h3, h4, h5, h6, h7, h8, h9]

/-- C7 witness at a concrete unmatched message. -/
theorem classify_unmatched_echoes_message_witness :
    classify_download_error "boom 404" = ("Error desconocido", "boom 404") :=
  classify_unmatched_echoes_message "boom 404" (by decide) (by decide)
    (by decide) (by decide) (Or.inl (by decide)) (by decide) (by decide)
    (by decide) (Or.inl (by decide)) (by decide)

/-- C5 counterexample: the message "Unsupported URL: drm video" contains
the substring "drm" (case-insensitively), yet the classifier returns the
unsupported-site category, not the DRM-protected one, because the
unsupported-site pattern is tested first. -/
theorem drm_claim_counterexample :
    strIn "drm" (pyLower "Unsupported URL: drm video") = true
    ∧ (classify_download_error "Unsupported URL: drm video").fst
        = "Sitio no soportado"
    ∧ (classify_download_error "Unsupported URL: drm video").fst
        ≠ "Contenido protegido por DRM" := by
  refine ⟨by decide, by decide, by decide⟩

/-- C5 amended: a message containing "drm" or "encrypted"
(case-insensitively) whose lowercased form contains neither
"unsupported url" nor "no extractor" is classified as the DRM-protected
category. -/
theorem classify_drm (m : String)
    (hd : strIn "drm" (pyLower m) = true ∨ strIn "encrypted" (pyLower m) = true)
    (h0 : strIn "unsupported url" (pyLower m) = false)
    (h1 : strIn "no extractor" (pyLower m) = false) :
    classify_download_error m =
      ("Contenido protegido por DRM",
       "No es posible descargar/descifrar videos con DRM (Netflix, Disney+, etc.).") := by
  rcases hd with hd | hd <;> simp [classify_download_error, h0, h1, hd]

/-- C5 amended witness at a concrete DRM message. -/
theorem classify_drm_witness :
    classify_download_error "This content is DRM protected" =
      ("Contenido protegido por DRM",
       "No es posible descargar/descifrar videos con DRM (Netflix, Disney+, etc.).") :=
  classify_drm "This content is DRM protected" (Or.inl (by decide))
    (by decide) (by decide)

/-- C6 counterexample: the message "drm private stream" contains
"private", yet the classifier returns the DRM-protected category, not
the login-required one, because the DRM pattern is tested first. -/
theorem login_claim_counterexample :
    strIn "private" (pyLower "drm private stream") = true
    ∧ (classify_download_error "drm private stream").fst
        = "Contenido protegido por DRM"
    ∧ (classify_download_error "drm private stream").fst
        ≠ "Requiere iniciar sesión" := by
  refine ⟨by decide, by decide, by decide⟩

/-- C6 amended: a message containing "login", "cookies" or "private"
(case-insensitively) whose lowercased form matches none of the three
earlier patterns (unsupported site, DRM, geo-block) is classified as
the login-required category. -/
theorem classify_login (m : String)
    (hl : strIn "login" (pyLower m) = true ∨ strIn "cookies" (pyLower m) = true
          ∨ strIn "private" (pyLower m) = true)
    (h0 : strIn "unsupported url" (pyLower m) = false)
    (h1 : strIn "no extractor" (pyLower m) = false)
    (h2 : strIn "drm" (pyLower m) = false)
    (h3 : strIn "encrypted" (pyLower m) = false)
    (h4 : strIn "this video is unavailable" (pyLower m) = false
          ∨ strIn "country" (pyLower m) = false) :
    classify_download_error m =
      ("Requiere iniciar sesión",
       "Debes pasar tus cookies del navegador (`--cookies-from-browser`) para contenido privado o con edad restringida.") := by
  rcases h4 with h4 | h4 <;> rcases hl with hl | hl | hl <;>
    simp [classify_download_error, h0, h1, h2, h3, h4, hl]

/-- C6 amended witness at a concrete login-required message. -/
theorem classify_login_witness :
    classify_download_error "Login required for this video" =
      ("Requiere iniciar sesión",
       "Debes pasar tus cookies del navegador (`--cookies-from-browser`) para contenido privado o con edad restringida.") :=
  classify_login "Login required for this video" (Or.inl (by decide))
    (by decide) (by decide) (by decide) (by decide) (Or.inl (by decide))

/-- C10: the classifier is a total function whose result is the category
of the first matching raw pattern in the fixed order unsupported-site,
DRM, geo-block (which needs both of its substrings), login, ffmpeg,
filename-too-long, then unknown; consequently, whenever the pattern at
position `i` matches, the chosen category index is at most `i`. -/
theorem classify_priority_order (m : String) :
    classify_download_error m = categoryOf (firstMatchIndex m) m
    ∧ ∀ i (h : i < patternGuards.length),
        patternGuards.get ⟨i, h⟩ (pyLower m) = true →
        firstMatchIndex m ≤ i := by
  constructor
  · cases hg0 : (strIn "unsupported url" (pyLower m) || strIn "no extractor" (pyLower m)) <;>
    cases hg1 : (strIn "drm" (pyLower m) || strIn "encrypted" (pyLower m)) <;>
    cases hg2 : (strIn "this video is unavailable" (pyLower m) && strIn "country" (pyLower m)) <;>
    cases hg3 : (strIn "login" (pyLower m) || strIn "cookies" (pyLower m) || strIn "private" (pyLower m)) <;>
    cases hg4 : (strIn "ffmpeg" (pyLower m) && strIn "not found" (pyLower m)) <;>
    cases hg5 : (strIn "file name too long" (pyLower m)) <;>
      simp [classify_download_error, firstMatchIndex, patternGuards,
        categoryOf, List.findIdx_cons, List.findIdx_nil,
        hg0, hg1, hg2, hg3, hg4, hg5]
  · intro i h hgi
    by_contra hlt
    rw [Nat.not_le] at hlt
    simp only [firstMatchIndex] at hlt
    have hfalse := @List.not_of_lt_findIdx _ (fun g => g (pyLower m)) patternGuards i hlt
    simp only [List.get_eq_getElem] at hgi
    simp_all

/-- C10 witness: "drm login" matches both the DRM pattern (index 1) and
the login pattern (index 3); the classifier picks the category of the
earliest, and the chosen index is at most 3. -/
theorem classify_priority_order_witness :
    classify_download_error "drm login" =
      categoryOf (firstMatchIndex "drm login") "drm login"
    ∧ firstMatchIndex "drm login" ≤ 3 :=
  ⟨(classify_priority_order "drm login").1,
   (classify_priority_order "drm login").2 3 (by decide) (by decide)⟩

/-- C4: when the engine call returns without raising but the reported
path has no file or a zero-size file, the handler reports the
no-file-produced failure and stops without opening the file; the
success branch, which opens the file and offers it, is reached only
when the file exists with non-zero size. -/
theorem no_file_guard (info : Info) (fs : FileState) (fname : String) :
    (fs.fileExists = false ∨ fs.size = 0 →
      handleDownloaded info fs fname =
        .noFile "No se generó ningún archivo. Verifica la URL y vuelve a intentar.")
    ∧ ∀ t b, handleDownloaded info fs fname = .offered t b →
        fs.fileExists = true ∧ 0 < fs.size := by
  constructor
  · rintro (h | h) <;> simp [handleDownloaded, h]
  · intro t b hoff
    cases he : fs.fileExists <;> cases hs : fs.size <;>
      simp_all [handleDownloaded]

/-- C4 witness: a zero-size file on an existing path is rejected. -/
theorem no_file_guard_witness :
    handleDownloaded ⟨"v1", "T"⟩ ⟨true, 0, []⟩ "v1.mp4" =
      .noFile "No se generó ningún archivo. Verifica la URL y vuelve a intentar." :=
  (no_file_guard ⟨"v1", "T"⟩ ⟨true, 0, []⟩ "v1.mp4").1 (Or.inr rfl)

/-- C1 evaluated at the failing input: for two sequential downloads of
different media the handler does offer each file's exact bytes and
name, but the download widget's `key` is `none` both times — the source
passes no `key` to `st.download_button`, so the widget is not scoped by
a key unique to the media identifier, contradicting the claim. -/
theorem download_button_key_is_none :
    handleDownloaded ⟨"vidA", "A"⟩ ⟨true, 2, [10, 20]⟩ "vidA.mp4" =
      .offered "A" { label := "💾 Guardar MP4", data := [10, 20],
                     file_name := "vidA.mp4", mime := "video/mp4", key := none }
    ∧ handleDownloaded ⟨"vidB", "B"⟩ ⟨true, 3, [30, 40, 50]⟩ "vidB.mp4" =
      .offered "B" { label := "💾 Guardar MP4", data := [30, 40, 50],
                     file_name := "vidB.mp4", mime := "video/mp4", key := none } :=
  ⟨rfl, rfl⟩

/-- C2 evaluated at the failing input: the template handed to the
engine contains the literal "% (id)s" — percent, space, parenthesis —
so it has no `id` field in the engine's `%(id)s` syntax, while the
`ext` field is present; the produced filename is therefore not derived
from the media identifier, contradicting the claim. -/
theorem outtmpl_id_is_not_a_field :
    usesField "id" (outtmpl "/tmp/streamlit_video_dl") = false
    ∧ usesField "ext" (outtmpl "/tmp/streamlit_video_dl") = true
    ∧ strIn "% (id)s" (outtmpl "/tmp/streamlit_video_dl") = true := by
  refine ⟨by decide, by decide, by decide⟩

/-- C3 (against the spec-modelled eviction, absent from the source
revision under `src/`): after a successful download, a directory whose
aggregate size exceeds 300 MB is purged to empty, and a directory at or
below the threshold keeps exactly its files. -/
theorem cleanup_threshold (files : List (String × Nat)) :
    (300 * 1024 * 1024 < dirSize files → cleanup_tmp_dir files = [])
    ∧ (dirSize files ≤ 300 * 1024 * 1024 → cleanup_tmp_dir files = files) := by
  constructor <;> intro h
  · simp [cleanup_tmp_dir, h]
  · simp [cleanup_tmp_dir, Nat.not_lt.mpr h]

/-- C3 witness: a 400 MB directory is purged; a 1000-byte directory is
left untouched. -/
theorem cleanup_threshold_witness :
    cleanup_tmp_dir [("a.mp4", 400 * 1024 * 1024)] = []
    ∧ cleanup_tmp_dir [("a.mp4", 1000)] = [("a.mp4", 1000)] :=
  ⟨(cleanup_threshold [("a.mp4", 400 * 1024 * 1024)]).1 (by decide),
   (cleanup_threshold [("a.mp4", 1000)]).2 (by decide)⟩
